import Mathlib

/-!
Verification of `tensor2tensor/models/research/rl.py`.

Shallow embedding: tensors are shape/data records over `ℚ`, hyperparameter
objects (`tf.contrib.training.HParams`) are records of a registered-name list
and an attribute association list, and external network layers (fully-connected
layers, bit embeddings) are abstracted as function parameters, since their
weights live in the external framework.
-/

namespace RL

/-! ## `clip_logits` (rl.py lines 315-321)

```python
def clip_logits(logits, config):
  logits_clip = getattr(config, "logits_clip", 0.)
  if logits_clip > 0:
    min_logit = tf.reduce_min(logits)
    return tf.minimum(logits - min_logit, logits_clip)
  else:
    return logits
```
The logits tensor is modelled as a flat list of its (finite) entries; the
config is modelled by its optional `logits_clip` attribute (`getattr` with
default `0.`). `tf.reduce_min` with no axis is the minimum over all entries. -/

/-- `tf.reduce_min` over all entries of a nonempty tensor. -/
def reduce_min : List ℚ → ℚ
  | [] => 0
  | x :: xs => xs.foldl min x

/-- `clip_logits(logits, config)`: `config` is the optional `logits_clip`
attribute of the hparams object. -/
def clip_logits (logits : List ℚ) (config : Option ℚ) : List ℚ :=
  let logits_clip := config.getD 0
  if logits_clip > 0 then
    let min_logit := reduce_min logits
    logits.map (fun x => min (x - min_logit) logits_clip)
  else
    logits

theorem foldl_min_le_self (xs : List ℚ) (a : ℚ) : xs.foldl min a ≤ a := by
  induction xs generalizing a with
  | nil => simp
  | cons y ys ih =>
      calc (y :: ys).foldl min a = ys.foldl min (min a y) := rfl
        _ ≤ min a y := ih _
        _ ≤ a := min_le_left _ _

theorem foldl_min_le_mem (xs : List ℚ) (a x : ℚ) (hx : x ∈ xs) :
    xs.foldl min a ≤ x := by
  induction xs generalizing a with
  | nil => cases hx
  | cons y ys ih =>
      rcases List.mem_cons.mp hx with h | h
      · subst h
        calc (x :: ys).foldl min a = ys.foldl min (min a x) := rfl
          _ ≤ min a x := foldl_min_le_self _ _
          _ ≤ x := min_le_right _ _
      · exact ih (min a y) h

theorem reduce_min_le (logits : List ℚ) (x : ℚ) (hx : x ∈ logits) :
    reduce_min logits ≤ x := by
  cases logits with
  | nil => cases hx
  | cons y ys =>
      rcases List.mem_cons.mp hx with h | h
      · subst h; exact foldl_min_le_self _ _
      · exact foldl_min_le_mem _ _ _ h

/-! ## Environment factories (rl.py lines 125-149) -/

/-- Modelled from the spec: `PyFuncBatchEnv` (from
`tensor2tensor.rl.envs.py_func_batch_env`, whose source is not in this
repository snapshot) is an adapter wrapping a real batch env for in-graph
stepping; it is modelled as a record holding the wrapped env. -/
structure PyFuncBatchEnv (α : Type) where
  env : α

/-- `make_real_env_fn(env)` returns `lambda in_graph: PyFuncBatchEnv(env) if
in_graph else env`. The untouched env is the left summand, the wrapped env the
right one. -/
def make_real_env_fn {α : Type} (env : α) : Bool → α ⊕ PyFuncBatchEnv α :=
  fun in_graph => if in_graph then Sum.inr ⟨env⟩ else Sum.inl env

/-! ## Tensors and features -/

/-- A tensor as its static shape together with its flat entry list. -/
structure Tensor where
  shape : List ℕ
  data : List ℚ
deriving DecidableEq

/-- `tf.constant(v, shape=s)` / `tf.zeros(s)`: a constant tensor. -/
def Tensor.const (s : List ℕ) (v : ℚ) : Tensor :=
  ⟨s, List.replicate s.prod v⟩

/-- The features dictionary passed to a policy model body:
`{"inputs": ..., "target_action": ..., "target_value": ...}`. -/
structure Features where
  inputs : Tensor
  target_action : Tensor
  target_value : Tensor
deriving DecidableEq

/-- `DiscretePolicyBase._get_num_actions`:
`common_layers.shape_list(features["target_action"])[2]`. -/
def get_num_actions (f : Features) : ℕ :=
  f.target_action.shape.getD 2 0

/-! ## `RandomPolicy.body` (rl.py lines 447-462)

```python
observations = features["inputs"]
obs_shape = observations.shape.as_list()
tf.get_variable("dummy_var", initializer=0.0)
num_actions = self._get_num_actions(features)
logits = tf.constant(1. / float(num_actions), shape=(obs_shape[:2] + [num_actions]))
value = tf.zeros(obs_shape[:2])
return {"target_action": logits, "target_value": value}
```
The dummy variable creation has no effect on the returned tensors. -/

/-- `RandomPolicy.body`, returning the `target_action` and `target_value`
tensors. -/
def RandomPolicy_body (f : Features) : Tensor × Tensor :=
  let obs_shape := f.inputs.shape
  let num_actions := get_num_actions f
  (Tensor.const (obs_shape.take 2 ++ [num_actions]) (1 / (num_actions : ℚ)),
   Tensor.const (obs_shape.take 2) 0)

/-! ## `DenseBitwiseCategoricalPolicy.body` (rl.py lines 420-444)

```python
x = tf.reshape(observations, [-1] + obs_shape[2:])
x = discretization.int_to_bit_embed(x, 8, 32)
flat_x = tf.reshape(x, [obs_shape[0], obs_shape[1], ...])
x = tf.contrib.layers.fully_connected(flat_x, 256, tf.nn.relu)
x = tf.contrib.layers.fully_connected(flat_x, 128, tf.nn.relu)
logits = tf.contrib.layers.fully_connected(x, num_actions, activation_fn=None)
value = tf.contrib.layers.fully_connected(x, 1, activation_fn=None)[..., 0]
```
The reshape/bit-embedding pipeline producing `flat_x` and the four
fully-connected layers (each with its own externally-stored weights) are
abstracted as function parameters; the body is the dataflow between them,
mirroring the source's rebinding of `x`. -/

/-- `DenseBitwiseCategoricalPolicy.body` dataflow: `embed` is the
reshape-and-bit-embed pipeline producing `flat_x`; `fc256`, `fc128`,
`fc_logits`, `fc_value` are the four fully-connected layers. -/
def DenseBitwiseCategoricalPolicy_body
    (embed : Tensor → List ℚ)
    (fc256 fc128 fc_logits fc_value : List ℚ → List ℚ)
    (f : Features) : List ℚ × List ℚ :=
  let flat_x := embed f.inputs
  let x := fc256 flat_x
  let x := fc128 flat_x
  (fc_logits x, fc_value x)

/-! ## Action-space validation (rl.py lines 152-178 and 275-312)

`get_policy` raises `ValueError("Expecting discrete action space.")` unless
`action_space` is a `gym.spaces.Discrete`; after the check it builds the
features dictionary (with `tf.zeros` placeholders of shapes
`obs_shape[:2] + [action_space.n]` and `obs_shape[:2]`) and calls the
registered model on it. `feed_forward_gaussian_fun` raises
`ValueError("Expecting continuous action space.")` unless `action_space` is a
`gym.spaces.box.Box`; after the check it builds the Gaussian network. The
registered model and the network construction are external, abstracted as
function parameters. -/

/-- A gym action space: `Discrete(n)`, `Box(shape)`, or any other space kind
(`isinstance` fails on both checks for those). -/
inductive GymSpace
  | Discrete (n : ℕ)
  | Box (shape : List ℕ)
  | Other
deriving DecidableEq

/-- `get_policy(observations, hparams, action_space)`: validates the action
space, then builds the features dict from `obs_shape[:2]` and `action_space.n`
and runs the registered model (abstracted as `model`). -/
def get_policy {α : Type} (model : List ℕ × List ℕ → α)
    (obs_shape : List ℕ) (action_space : GymSpace) : Except String α :=
  match action_space with
  | .Discrete n => .ok (model (obs_shape.take 2 ++ [n], obs_shape.take 2))
  | _ => .error "Expecting discrete action space."

/-- `feed_forward_gaussian_fun(action_space, config, observations)`: validates
the action space, then builds the Gaussian policy network (abstracted as
`network`, fed the box's shape, whose head size is `action_space.shape[0]`). -/
def feed_forward_gaussian_fun {α : Type} (network : List ℕ → α)
    (action_space : GymSpace) : Except String α :=
  match action_space with
  | .Box shape => .ok (network shape)
  | _ => .error "Expecting continuous action space."

/-! ## `make_simulated_env_fn` (rl.py lines 137-149)

```python
def make_simulated_env_fn(**env_kwargs):
  def env_fn(in_graph):
    class_ = SimulatedBatchEnv if in_graph else SimulatedBatchGymEnv
    return class_(**env_kwargs)
  return env_fn
```
-/

/-- A constructed simulated env, tagged by which of the two classes built it
and holding the keyword arguments it received. -/
inductive SimEnv
  | inGraph (kwargs : List String)
  | outOfGraph (kwargs : List String)
deriving DecidableEq

/-- Modelled from the spec: constructing a class with keyword arguments (the
constructors `SimulatedBatchEnv` and `SimulatedBatchGymEnv` are not in this
repository snapshot) succeeds when every required argument name is supplied
and otherwise fails with the list of missing argument names. -/
def construct_kw (required : List String) (mk : List String → SimEnv)
    (kwargs : List String) : Except (List String) SimEnv :=
  let missing := required.filter (fun r => !(kwargs.contains r))
  if missing.isEmpty then .ok (mk kwargs) else .error missing

/-- Modelled from the spec: `SimulatedBatchEnv(**kwargs)` (in-graph variant);
per the spec both simulated-env variants accept an identical keyword-argument
contract, here the shared `required` name list. -/
def SimulatedBatchEnv (required kwargs : List String) : Except (List String) SimEnv :=
  construct_kw required SimEnv.inGraph kwargs

/-- Modelled from the spec: `SimulatedBatchGymEnv(**kwargs)` (out-of-graph
variant), sharing the same required-argument contract. -/
def SimulatedBatchGymEnv (required kwargs : List String) : Except (List String) SimEnv :=
  construct_kw required SimEnv.outOfGraph kwargs

/-- `make_simulated_env_fn(**env_kwargs)`: the returned `env_fn`, selecting
the class by the `in_graph` flag and passing the same kwargs to it. -/
def make_simulated_env_fn (required env_kwargs : List String) :
    Bool → Except (List String) SimEnv :=
  fun in_graph =>
    if in_graph then SimulatedBatchEnv required env_kwargs
    else SimulatedBatchGymEnv required env_kwargs

/-! ## Hyperparameter objects

`tf.contrib.training.HParams` stores hyperparameter values as plain Python
attributes and keeps a separate registry of hyperparameter names
(`_hparam_types`): the constructor and `add_hparam` register a name and set
its attribute, `set_hparam` checks the name is registered and sets its
attribute, and plain attribute assignment (`hparams.foo = v`) sets the
attribute without registering anything. We model an hparams object as the
list of registered names plus an attribute association list in which the most
recent assignment comes first. -/

/-- An hparam attribute value: float, int, string, bool, int tuple or `None`. -/
inductive Val
  | num (q : ℚ)
  | int (n : ℤ)
  | str (s : String)
  | bool (b : Bool)
  | pair (a b : ℕ)
  | none
deriving DecidableEq

/-- A `tf.contrib.training.HParams` object: registered hyperparameter names
and the attribute assignments (latest first). -/
structure HParams where
  reg : List String
  vals : List (String × Val)
deriving DecidableEq

/-- Plain attribute assignment `hparams.k = v`. -/
def HParams.attrSet (h : HParams) (k : String) (v : Val) : HParams :=
  { h with vals := (k, v) :: h.vals }

/-- `hparams.add_hparam(k, v)`: registers the name and sets the attribute.
(The real method raises if `k` is already registered; every `add_hparam` call
in this file adds a name fresh in its chain.) -/
def HParams.addHparam (h : HParams) (k : String) (v : Val) : HParams :=
  { reg := k :: h.reg, vals := (k, v) :: h.vals }

/-- `hparams.set_hparam(k, v)`: raises (`Option.none`) unless `k` is
registered. -/
def HParams.setHparam (h : HParams) (k : String) (v : Val) : Option HParams :=
  if k ∈ h.reg then some { h with vals := (k, v) :: h.vals } else Option.none

/-- `HParams(k1=v1, ...)`: the constructor registers every given name. -/
def HParams.ofList (l : List (String × Val)) : HParams :=
  { reg := l.map Prod.fst, vals := l }

/-- Attribute read `getattr(hparams, k)`. -/
def HParams.getAttr (h : HParams) (k : String) : Option Val :=
  h.vals.lookup k

theorem getAttr_attrSet (h : HParams) (k k' : String) (v : Val) :
    (h.attrSet k v).getAttr k' = if k' = k then some v else h.getAttr k' := by
  simp [HParams.attrSet, HParams.getAttr, List.lookup]
  split <;> simp_all

theorem getAttr_addHparam (h : HParams) (k k' : String) (v : Val) :
    (h.addHparam k v).getAttr k' = if k' = k then some v else h.getAttr k' := by
  simp [HParams.addHparam, HParams.getAttr, List.lookup]
  split <;> simp_all

/-! ## Hyperparameter presets (rl.py lines 36-122, 180-186, 189-225)

`ppo_base_v1` starts from `common_hparams.basic_params1()` (defined outside
this file, in `tensor2tensor/layers/common_hparams.py`); the presets are
therefore parameterized by an arbitrary base object `base`, so every theorem
below holds for whatever `basic_params1` returns. Each preset function calls
its base preset function afresh and then mutates only that fresh object, so
the functional chains below are a faithful rendering. -/

/-- `ppo_base_v1()` applied to the `basic_params1()` result. -/
def ppo_base_v1 (base : HParams) : HParams :=
  base
  |>.attrSet "learning_rate_schedule" (.str "constant")
  |>.attrSet "learning_rate_constant" (.num 1e-4)
  |>.attrSet "clip_grad_norm" (.num 0.5)
  |>.addHparam "lr_decay_in_final_epoch" (.bool false)
  |>.addHparam "init_mean_factor" (.num 0.1)
  |>.addHparam "init_logstd" (.num 0.1)
  |>.addHparam "policy_layers" (.pair 100 100)
  |>.addHparam "value_layers" (.pair 100 100)
  |>.addHparam "clipping_coef" (.num 0.2)
  |>.addHparam "gae_gamma" (.num 0.99)
  |>.addHparam "gae_lambda" (.num 0.95)
  |>.addHparam "entropy_loss_coef" (.num 0.01)
  |>.addHparam "value_loss_coef" (.int 1)
  |>.addHparam "optimization_epochs" (.int 15)
  |>.addHparam "epoch_length" (.int 200)
  |>.addHparam "epochs_num" (.int 2000)
  |>.addHparam "eval_every_epochs" (.int 10)
  |>.addHparam "save_models_every_epochs" (.int 30)
  |>.addHparam "optimization_batch_size" (.int 50)
  |>.addHparam "intrinsic_reward_scale" (.num 0)
  |>.addHparam "logits_clip" (.num 0)
  |>.addHparam "dropout_ppo" (.num 0.1)
  |>.addHparam "effective_num_agents" .none

/-- `ppo_discrete_action_base()`. -/
def ppo_discrete_action_base (base : HParams) : HParams :=
  (ppo_base_v1 base).addHparam "policy_network" (.str "feed_forward_categorical_policy")

/-- `ppo_atari_base()`. -/
def ppo_atari_base (base : HParams) : HParams :=
  ppo_discrete_action_base base
  |>.attrSet "learning_rate_constant" (.num 1e-4)
  |>.attrSet "epoch_length" (.int 200)
  |>.attrSet "gae_gamma" (.num 0.985)
  |>.attrSet "gae_lambda" (.num 0.985)
  |>.attrSet "entropy_loss_coef" (.num 0.003)
  |>.attrSet "value_loss_coef" (.int 1)
  |>.attrSet "optimization_epochs" (.int 3)
  |>.attrSet "epochs_num" (.int 1000)
  |>.attrSet "policy_network" (.str "feed_forward_cnn_small_categorical_policy")
  |>.attrSet "clipping_coef" (.num 0.2)
  |>.attrSet "optimization_batch_size" (.int 20)
  |>.attrSet "clip_grad_norm" (.num 0.5)

/-- `ppo_original_params()`. -/
def ppo_original_params (base : HParams) : HParams :=
  ppo_atari_base base
  |>.attrSet "learning_rate_constant" (.num 2.5e-4)
  |>.attrSet "gae_gamma" (.num 0.99)
  |>.attrSet "gae_lambda" (.num 0.95)
  |>.attrSet "clipping_coef" (.num 0.1)
  |>.attrSet "value_loss_coef" (.int 1)
  |>.attrSet "entropy_loss_coef" (.num 0.01)
  |>.attrSet "eval_every_epochs" (.int 200)
  |>.attrSet "dropout_ppo" (.num 0.1)
  |>.attrSet "epoch_length" (.int 50)
  |>.attrSet "optimization_batch_size" (.int 20)

/-- `ppo_pong_ae_base()`: note `hparams.network = ...` is a plain attribute
assignment to the name `network`, not to the registered `policy_network`. -/
def ppo_pong_ae_base (base : HParams) : HParams :=
  ppo_original_params base
  |>.attrSet "learning_rate_constant" (.num 1e-4)
  |>.attrSet "network" (.str "dense_bitwise_categorical_policy")

/-- `dqn_atari_base()`: a fresh `HParams` built from literal keyword
arguments. -/
def dqn_atari_base : HParams :=
  HParams.ofList [
    ("agent_gamma", .num 0.99),
    ("agent_update_horizon", .int 1),
    ("agent_min_replay_history", .int 20000),
    ("agent_update_period", .int 4),
    ("agent_target_update_period", .int 8000),
    ("agent_epsilon_train", .num 0.01),
    ("agent_epsilon_eval", .num 0.001),
    ("agent_epsilon_decay_period", .int 250000),
    ("agent_generates_trainable_dones", .bool true),
    ("optimizer_class", .str "RMSProp"),
    ("optimizer_learning_rate", .num 0.00025),
    ("optimizer_decay", .num 0.95),
    ("optimizer_momentum", .num 0),
    ("optimizer_epsilon", .num 0.00001),
    ("optimizer_centered", .bool true),
    ("replay_buffer_replay_capacity", .int 1000000),
    ("replay_buffer_batch_size", .int 32),
    ("time_limit", .int 27000),
    ("save_every_steps", .int 50000),
    ("num_frames", .int 20000000)]

/-- `dqn_original_params()`: `set_hparam("num_frames", int(1e6))`, which
checks that `num_frames` is registered. -/
def dqn_original_params : Option HParams :=
  dqn_atari_base.setHparam "num_frames" (.int 1000000)

/-- A helper equation: a successful `set_hparam` is a plain attribute update. -/
theorem setHparam_mem (h : HParams) (k : String) (v : Val) (hk : k ∈ h.reg) :
    h.setHparam k v = some (h.attrSet k v) := by
  simp [HParams.setHparam, HParams.attrSet, hk]

/-- C1: with `logits_clip = c > 0`, `clip_logits` subtracts the tensor-wide
minimum logit and clamps to the threshold, so every returned entry lies in
`[0, c]`. -/
theorem clip_logits_pos_range (logits : List ℚ) (c : ℚ) (hc : 0 < c) :
    clip_logits logits (some c)
      = logits.map (fun x => min (x - reduce_min logits) c)
    ∧ ∀ y ∈ clip_logits logits (some c), 0 ≤ y ∧ y ≤ c := by
  have heq : clip_logits logits (some c)
      = logits.map (fun x => min (x - reduce_min logits) c) := by
    simp [clip_logits, hc]
  refine ⟨heq, ?_⟩
  intro y hy
  rw [heq] at hy
  obtain ⟨x, hx, rfl⟩ := List.mem_map.mp hy
  exact ⟨le_min (sub_nonneg.mpr (reduce_min_le _ _ hx)) hc.le, min_le_right _ _⟩

/-- Witness for C1 at `logits = [3, 1, 2]`, `c = 1`. -/
theorem clip_logits_pos_range_witness :
    (0 : ℚ) < 1 ∧ ∀ y ∈ clip_logits [3, 1, 2] (some 1), 0 ≤ y ∧ y ≤ 1 :=
  ⟨by norm_num, (clip_logits_pos_range [3, 1, 2] 1 (by norm_num)).2⟩

/-- C2: with `logits_clip <= 0` (including the absent-attribute default `0.`),
`clip_logits` returns the logits unchanged. -/
theorem clip_logits_nonpos_id (logits : List ℚ) (config : Option ℚ)
    (h : config.getD 0 ≤ 0) : clip_logits logits config = logits := by
  simp [clip_logits, not_lt.mpr h]

/-- Witness for C2 at `logits = [5, -3]` with an absent `logits_clip`. -/
theorem clip_logits_nonpos_id_witness :
    (Option.none : Option ℚ).getD 0 ≤ 0
    ∧ clip_logits [5, -3] Option.none = [5, -3] :=
  ⟨by norm_num, clip_logits_nonpos_id [5, -3] Option.none (by norm_num)⟩

/-- C3: for every base object and every hyperparameter name not explicitly
overridden, `ppo_atari_base` keeps `ppo_discrete_action_base`'s value,
`ppo_original_params` keeps `ppo_atari_base`'s value, and
`dqn_original_params` keeps `dqn_atari_base`'s value. -/
theorem preset_inheritance (base : HParams) (k : String) :
    (k ∉ ["learning_rate_constant", "epoch_length", "gae_gamma", "gae_lambda",
        "entropy_loss_coef", "value_loss_coef", "optimization_epochs",
        "epochs_num", "policy_network", "clipping_coef",
        "optimization_batch_size", "clip_grad_norm"] →
      (ppo_atari_base base).getAttr k = (ppo_discrete_action_base base).getAttr k)
    ∧ (k ∉ ["learning_rate_constant", "gae_gamma", "gae_lambda",
        "clipping_coef", "value_loss_coef", "entropy_loss_coef",
        "eval_every_epochs", "dropout_ppo", "epoch_length",
        "optimization_batch_size"] →
      (ppo_original_params base).getAttr k = (ppo_atari_base base).getAttr k)
    ∧ (k ≠ "num_frames" →
      dqn_original_params.map (fun h => h.getAttr k)
        = some (dqn_atari_base.getAttr k)) := by
  refine ⟨?_, ?_, ?_⟩
  · intro hk
    simp only [List.mem_cons, List.not_mem_nil, or_false, not_or] at hk
    simp [ppo_atari_base, getAttr_attrSet, hk]
  · intro hk
    simp only [List.mem_cons, List.not_mem_nil, or_false, not_or] at hk
    simp [ppo_original_params, getAttr_attrSet, hk]
  · intro hk
    rw [dqn_original_params,
      setHparam_mem _ _ _ (by decide : "num_frames" ∈ dqn_atari_base.reg)]
    simp [getAttr_attrSet, hk]

/-- Witness for C3 at the empty base, on the untouched names `init_logstd`
(first conjunct), `init_mean_factor` (second conjunct) and `save_every_steps`
(third conjunct). -/
theorem preset_inheritance_witness :
    ((ppo_atari_base ⟨[], []⟩).getAttr "init_logstd"
        = (ppo_discrete_action_base ⟨[], []⟩).getAttr "init_logstd")
    ∧ ((ppo_original_params ⟨[], []⟩).getAttr "init_mean_factor"
        = (ppo_atari_base ⟨[], []⟩).getAttr "init_mean_factor")
    ∧ (dqn_original_params.map (fun h => h.getAttr "save_every_steps")
        = some (dqn_atari_base.getAttr "save_every_steps")) :=
  ⟨(preset_inheritance ⟨[], []⟩ "init_logstd").1 (by decide),
   (preset_inheritance ⟨[], []⟩ "init_mean_factor").2.1 (by decide),
   (preset_inheritance ⟨[], []⟩ "save_every_steps").2.2 (by decide)⟩

/-- C4: `RandomPolicy.body` on an input of shape `(B, T, ...)` with `N`
actions returns logits of shape `(B, T, N)` with every entry `1/N` and a
value tensor of shape `(B, T)` with every entry `0`. -/
theorem RandomPolicy_body_spec (f : Features) (B T N : ℕ) (rest : List ℕ)
    (hobs : f.inputs.shape = B :: T :: rest)
    (hact : f.target_action.shape.get? 2 = some N) :
    ((RandomPolicy_body f).1.shape = [B, T, N]
      ∧ ∀ x ∈ (RandomPolicy_body f).1.data, x = 1 / (N : ℚ))
    ∧ (RandomPolicy_body f).2.shape = [B, T]
    ∧ ∀ x ∈ (RandomPolicy_body f).2.data, x = 0 := by
  have hN : get_num_actions f = N := by
    simp [get_num_actions, List.getD_eq_getElem?_getD, List.get?_eq_getElem?] at hact ⊢
    simp [hact]
  refine ⟨⟨?_, ?_⟩, ?_, ?_⟩
  · simp [RandomPolicy_body, Tensor.const, hobs, hN]
  · intro x hx
    simp only [RandomPolicy_body, Tensor.const, hN] at hx
    exact List.eq_of_mem_replicate hx
  · simp [RandomPolicy_body, Tensor.const, hobs]
  · intro x hx
    simp only [RandomPolicy_body, Tensor.const] at hx
    exact List.eq_of_mem_replicate hx

/-- Witness for C4 at a concrete features dict with `B = 2`, `T = 3`,
`N = 5`. -/
theorem RandomPolicy_body_spec_witness :
    ((RandomPolicy_body ⟨⟨[2, 3, 4], [7]⟩, ⟨[2, 3, 5], []⟩, ⟨[2, 3], []⟩⟩).1.shape
        = [2, 3, 5]
      ∧ ∀ x ∈ (RandomPolicy_body ⟨⟨[2, 3, 4], [7]⟩, ⟨[2, 3, 5], []⟩, ⟨[2, 3], []⟩⟩).1.data,
          x = 1 / ((5 : ℕ) : ℚ))
    ∧ (RandomPolicy_body ⟨⟨[2, 3, 4], [7]⟩, ⟨[2, 3, 5], []⟩, ⟨[2, 3], []⟩⟩).2.shape
        = [2, 3]
    ∧ ∀ x ∈ (RandomPolicy_body ⟨⟨[2, 3, 4], [7]⟩, ⟨[2, 3, 5], []⟩, ⟨[2, 3], []⟩⟩).2.data,
        x = 0 :=
  RandomPolicy_body_spec _ 2 3 5 [4] rfl rfl

/-- C5: `RandomPolicy.body` never reads the observation values: two features
dicts with equal static input shapes and equal action counts produce equal
outputs. -/
theorem RandomPolicy_body_noninterference (f1 f2 : Features)
    (hshape : f1.inputs.shape = f2.inputs.shape)
    (hact : get_num_actions f1 = get_num_actions f2) :
    RandomPolicy_body f1 = RandomPolicy_body f2 := by
  simp [RandomPolicy_body, hshape, hact]

/-- Witness for C5: two features dicts with different observation data (and
different target placeholders) but equal shapes and action counts. -/
theorem RandomPolicy_body_noninterference_witness :
    RandomPolicy_body ⟨⟨[1, 2], [3, 4]⟩, ⟨[1, 2, 6], []⟩, ⟨[1, 2], []⟩⟩
      = RandomPolicy_body ⟨⟨[1, 2], [9, 9]⟩, ⟨[5, 5, 6], [1]⟩, ⟨[], []⟩⟩ :=
  RandomPolicy_body_noninterference _ _ rfl rfl

/-- C6: `get_policy` fails with its `ValueError` exactly when the action space
is not `Discrete`, and `feed_forward_gaussian_fun` fails with its `ValueError`
exactly when the action space is not a `Box`; in the failing cases nothing is
handed to the model or network. -/
theorem action_space_validation {α : Type} (model : List ℕ × List ℕ → α)
    (network : List ℕ → α) (obs_shape : List ℕ) (s : GymSpace) :
    ((∃ e, get_policy model obs_shape s = .error e) ↔ ∀ n, s ≠ .Discrete n)
    ∧ ((∃ e, feed_forward_gaussian_fun network s = .error e)
        ↔ ∀ sh, s ≠ .Box sh) := by
  cases s <;> simp [get_policy, feed_forward_gaussian_fun]

/-- C7: the function returned by `make_real_env_fn(env)` yields `env` itself
on `False` and the `PyFuncBatchEnv`-wrapped `env` on `True`. -/
theorem make_real_env_fn_spec {α : Type} (env : α) :
    make_real_env_fn env false = Sum.inl env
    ∧ make_real_env_fn env true = Sum.inr ⟨env⟩ :=
  ⟨rfl, rfl⟩

/-- C8: `make_simulated_env_fn` hands the same kwargs to whichever
constructor the flag selects: on a kwargs set covering the required arguments
both calls succeed (with the respective class), and the `True` call fails with
a missing-argument error exactly when the `False` call fails with the same
error. -/
theorem make_simulated_env_fn_spec (required kwargs : List String) :
    (required.all (fun r => kwargs.contains r) →
      make_simulated_env_fn required kwargs true = .ok (SimEnv.inGraph kwargs)
      ∧ make_simulated_env_fn required kwargs false
          = .ok (SimEnv.outOfGraph kwargs))
    ∧ ∀ e, make_simulated_env_fn required kwargs true = .error e
        ↔ make_simulated_env_fn required kwargs false = .error e := by
  constructor
  · intro hv
    have hmem : ∀ x ∈ required, x ∈ kwargs := by
      intro a ha
      simpa using List.all_eq_true.mp hv a ha
    constructor <;>
      · simp [make_simulated_env_fn, SimulatedBatchEnv, SimulatedBatchGymEnv,
          construct_kw, List.filter_eq_nil_iff]
        exact hmem
  · intro e
    simp only [make_simulated_env_fn, SimulatedBatchEnv, SimulatedBatchGymEnv,
      construct_kw, if_true, Bool.false_eq_true, if_false]
    split <;> simp

/-- Witness for C8: a valid kwargs set for required argument `"batch_size"`,
and a missing-argument failure hitting both constructors identically. -/
theorem make_simulated_env_fn_spec_witness :
    (make_simulated_env_fn ["batch_size"] ["batch_size", "model_dir"] true
        = .ok (SimEnv.inGraph ["batch_size", "model_dir"])
      ∧ make_simulated_env_fn ["batch_size"] ["batch_size", "model_dir"] false
        = .ok (SimEnv.outOfGraph ["batch_size", "model_dir"]))
    ∧ (make_simulated_env_fn ["batch_size"] [] true = .error ["batch_size"]
      ↔ make_simulated_env_fn ["batch_size"] [] false = .error ["batch_size"]) :=
  ⟨(make_simulated_env_fn_spec ["batch_size"] ["batch_size", "model_dir"]).1
      (by decide),
   (make_simulated_env_fn_spec ["batch_size"] []).2 ["batch_size"]⟩

/-- C9: in `DenseBitwiseCategoricalPolicy.body` both outputs are the heads
applied to the 128-unit layer of `flat_x`; the 256-unit layer's output is
dead, so the body is invariant under replacing that layer. -/
theorem dense_bitwise_dead_layer (embed : Tensor → List ℚ)
    (fc256 fc256' fc128 fc_logits fc_value : List ℚ → List ℚ) (f : Features) :
    DenseBitwiseCategoricalPolicy_body embed fc256 fc128 fc_logits fc_value f
      = (fc_logits (fc128 (embed f.inputs)), fc_value (fc128 (embed f.inputs)))
    ∧ DenseBitwiseCategoricalPolicy_body embed fc256 fc128 fc_logits fc_value f
      = DenseBitwiseCategoricalPolicy_body embed fc256' fc128 fc_logits fc_value f :=
  ⟨rfl, rfl⟩

/-- C10: `ppo_pong_ae_base` keeps `policy_network` at the inherited
`"feed_forward_cnn_small_categorical_policy"`, puts
`"dense_bitwise_categorical_policy"` in the distinct unregistered attribute
`network` (the registered-name list is untouched), and changes no other
attribute relative to `ppo_original_params`. -/
theorem ppo_pong_ae_base_fields (base : HParams) (k : String) :
    (ppo_pong_ae_base base).getAttr "policy_network"
        = some (Val.str "feed_forward_cnn_small_categorical_policy")
    ∧ (ppo_pong_ae_base base).getAttr "network"
        = some (Val.str "dense_bitwise_categorical_policy")
    ∧ (ppo_pong_ae_base base).reg = (ppo_original_params base).reg
    ∧ (k ≠ "learning_rate_constant" → k ≠ "network" →
        (ppo_pong_ae_base base).getAttr k = (ppo_original_params base).getAttr k) := by
  refine ⟨?_, ?_, ?_, ?_⟩
  · simp [ppo_pong_ae_base, ppo_original_params, ppo_atari_base, getAttr_attrSet]
  · simp [ppo_pong_ae_base, getAttr_attrSet]
  · simp [ppo_pong_ae_base, HParams.attrSet]
  · intro h1 h2
    simp [ppo_pong_ae_base, getAttr_attrSet, h1, h2]

/-- Witness for C10 at the empty base and the untouched name `gae_gamma`. -/
theorem ppo_pong_ae_base_fields_witness :
    (ppo_pong_ae_base ⟨[], []⟩).getAttr "gae_gamma"
      = (ppo_original_params ⟨[], []⟩).getAttr "gae_gamma" :=
  (ppo_pong_ae_base_fields ⟨[], []⟩ "gae_gamma").2.2.2 (by decide) (by decide)

end RL
